import Mathlib

/-!
# Verification of the turborepo-shadcn-ui repository against its specification

Shallow embedding of the repository's operational artifacts:

* `apps/stories/Button.jsx` — the Storybook story file whose attached article
  implements the dynamic CTA selection routine (`getBestPerformingButton`,
  `DynamicCTA`, `CTAButton`) and the `POST` handler of the `trackClick` API
  route;
* `apps/.storybook/main.js` — the Storybook configuration object;
* `apps/docs/app/page.tsx` and the unnamed docs page — the page components;
* the autocomplete article's `handleAutocompleteRequest` with its KV/D2
  caching flow;
* the Markdown/MDX content documents and their front-matter blocks.

JSX element trees are modelled by the inductive `Node`; the EdgeDB
`ButtonClick` table by a list of rows; external services (the EdgeDB client,
Cloudflare KV and Durable Objects, Workers AI) by explicit state or function
parameters.
-/

set_option autoImplicit false
set_option maxRecDepth 8192

/-! ## JSX element trees

A rendered React element tree: host elements (`div`, `button`, …) with
attributes and children, component references, and text nodes. -/

inductive Node : Type where
  | element (tag : String) (attrs : List (String × String)) (children : List Node)
  | text (s : String)
  deriving Repr

/-! ## `apps/stories/Button.jsx`: dynamic CTA selection

The article attached to the story file defines an EdgeDB schema
`type ButtonClick { required property version -> str; required property
timestamp -> datetime }`, a `POST` click-tracking route, and the server
component `DynamicCTA` built on `getBestPerformingButton`. -/

/-- A row of the EdgeDB `ButtonClick` type: `version` is a string,
`timestamp` a datetime (modelled as a natural number). -/
structure ButtonClick where
  version : String
  timestamp : Nat
  deriving Repr, DecidableEq

/-- The database state for the CTA feature: the set of inserted
`ButtonClick` rows, as a list. -/
abbrev ClickDb := List ButtonClick

/-- `e.count(e.ButtonClick.filter(click => e.op(click.version, '=', v)))`:
the number of stored clicks whose `version` equals `v`. -/
def countClicks (db : ClickDb) (v : String) : Nat :=
  (db.filter (fun click => click.version = v)).length

/-- `getBestPerformingButton` from `DynamicCTA.tsx`: selects
`count(A-clicks) > count(B-clicks) ? 'A' : 'B'` and returns the result. -/
def getBestPerformingButton (db : ClickDb) : String :=
  if countClicks db "A" > countClicks db "B" then "A" else "B"

/-- `CTAButton({ version })`: a `button` element with an `aria-label` and the
label text `Buy Now (Version {version})`. -/
def CTAButton (version : String) : Node :=
  Node.element "button"
    [("onClick", "trackClick(" ++ version ++ ")"),
     ("aria-label", "Buy now - Version " ++ version)]
    [Node.text ("Buy Now (Version " ++ version ++ ")")]

/-- `DynamicCTA`: awaits `getBestPerformingButton()` and returns
`<div>{bestButton === 'A' ? <CTAButton version="A"/> : <CTAButton version="B"/>}</div>`. -/
def DynamicCTA (db : ClickDb) : Node :=
  Node.element "div" []
    [if getBestPerformingButton db = "A" then CTAButton "A" else CTAButton "B"]

/-! ## `apps/stories/Button.jsx`: the `trackClick` POST route -/

/-- The value `NextResponse.json({ message }, { status })` built by the
route handler. -/
structure JsonResponse where
  message : String
  status : Nat
  deriving Repr, DecidableEq

/-- The `POST` handler of `app/api/trackClick/route.ts`: reads `version` from
the request body, then inside a `try` block runs the `ButtonClick` insert and
returns `200 / 'Click tracked'`; the `catch` block turns any exception thrown
inside the `try` into `500 / 'Error tracking click'`.  The insert is an
external database operation, passed as the fallible `runInsert`; totality of
this function embeds the fact that no exception escapes the handler. -/
def POST (version : String) (runInsert : String → Except String Unit) : JsonResponse :=
  match runInsert version with
  | Except.ok _ => { message := "Click tracked", status := 200 }
  | Except.error _ => { message := "Error tracking click", status := 500 }

/-! ## Theorems for the CTA selection claims -/

/-- C1: for every database state, `getBestPerformingButton` compares the
click counts of versions `A` and `B` with greater-than and returns the
version whose count is greater, and `DynamicCTA` renders a `CTAButton` of
exactly the version returned. -/
theorem dynamicCTA_renders_best_performing (db : ClickDb) :
    (countClicks db "A" > countClicks db "B" → getBestPerformingButton db = "A") ∧
    (countClicks db "B" > countClicks db "A" → getBestPerformingButton db = "B") ∧
    DynamicCTA db = Node.element "div" [] [CTAButton (getBestPerformingButton db)] := by
  refine ⟨fun h => ?_, fun h => ?_, ?_⟩
  · simp [getBestPerformingButton, h]
  · have hne : ¬ countClicks db "A" > countClicks db "B" := Nat.not_lt.mpr (Nat.le_of_lt h)
    simp [getBestPerformingButton, hne]
  · by_cases h : countClicks db "A" > countClicks db "B" <;>
      simp [DynamicCTA, getBestPerformingButton, h]

/-- Witness for C1: on a database holding two `A` clicks and one `B` click,
version `A` wins and `DynamicCTA` renders the `A` button. -/
theorem dynamicCTA_renders_best_performing_witness :
    getBestPerformingButton [⟨"A", 0⟩, ⟨"A", 1⟩, ⟨"B", 2⟩] = "A" ∧
    DynamicCTA [⟨"A", 0⟩, ⟨"A", 1⟩, ⟨"B", 2⟩] =
      Node.element "div" [] [CTAButton (getBestPerformingButton [⟨"A", 0⟩, ⟨"A", 1⟩, ⟨"B", 2⟩])] :=
  ⟨(dynamicCTA_renders_best_performing [⟨"A", 0⟩, ⟨"A", 1⟩, ⟨"B", 2⟩]).1 (by decide),
   (dynamicCTA_renders_best_performing [⟨"A", 0⟩, ⟨"A", 1⟩, ⟨"B", 2⟩]).2.2⟩

/-- C3: whenever the `A` count does not strictly exceed the `B` count — in
particular on an exact tie — `getBestPerformingButton` returns `B` and
`DynamicCTA` renders the `B` variant. -/
theorem tie_resolved_in_favor_of_B (db : ClickDb)
    (h : countClicks db "A" ≤ countClicks db "B") :
    getBestPerformingButton db = "B" ∧
    DynamicCTA db = Node.element "div" [] [CTAButton "B"] := by
  have hne : ¬ countClicks db "A" > countClicks db "B" := Nat.not_lt.mpr h
  constructor
  · simp [getBestPerformingButton, hne]
  · simp [DynamicCTA, getBestPerformingButton, hne]

/-- Witness for C3: on a database with one click for each version (a tie),
version `B` is selected and rendered. -/
theorem tie_resolved_in_favor_of_B_witness :
    countClicks [⟨"A", 0⟩, ⟨"B", 1⟩] "A" ≤ countClicks [⟨"A", 0⟩, ⟨"B", 1⟩] "B" ∧
    getBestPerformingButton [⟨"A", 0⟩, ⟨"B", 1⟩] = "B" ∧
    DynamicCTA [⟨"A", 0⟩, ⟨"B", 1⟩] = Node.element "div" [] [CTAButton "B"] :=
  ⟨by decide,
   (tie_resolved_in_favor_of_B [⟨"A", 0⟩, ⟨"B", 1⟩] (by decide)).1,
   (tie_resolved_in_favor_of_B [⟨"A", 0⟩, ⟨"B", 1⟩] (by decide)).2⟩

/-- C4: the `trackClick` POST handler returns `200 / 'Click tracked'` exactly
when the insert succeeds, and `500 / 'Error tracking click'` whenever the
insert throws; being a total function of the insert's outcome, it propagates
no exception. -/
theorem trackClick_POST_error_handling (version : String)
    (runInsert : String → Except String Unit) :
    (POST version runInsert = { message := "Click tracked", status := 200 } ↔
      runInsert version = Except.ok ()) ∧
    (∀ e : String, runInsert version = Except.error e →
      POST version runInsert = { message := "Error tracking click", status := 500 }) := by
  constructor
  · constructor
    · intro h
      cases hr : runInsert version with
      | ok u => cases u; rfl
      | error e => simp [POST, hr] at h
    · intro h
      simp [POST, h]
  · intro e h
    simp [POST, h]

/-- Witness for C4: a succeeding insert yields `200 / 'Click tracked'`, and a
throwing insert yields `500 / 'Error tracking click'`. -/
theorem trackClick_POST_error_handling_witness :
    POST "A" (fun _ => Except.ok ()) = { message := "Click tracked", status := 200 } ∧
    POST "A" (fun _ => Except.error "db down") =
      { message := "Error tracking click", status := 500 } :=
  ⟨(trackClick_POST_error_handling "A" (fun _ => Except.ok ())).1.mpr rfl,
   (trackClick_POST_error_handling "A" (fun _ => Except.error "db down")).2 "db down" rfl⟩

/-! ## `apps/.storybook/main.js`: the Storybook configuration

The exported `config` object.  `getAbsolutePath(value)` resolves a package
name to the directory of its `package.json`; the `addons` field is the list
of `getAbsolutePath` applied to five fixed package names, so the addon
package names are embedded directly. -/

/-- The shape of the exported Storybook `config` object (the fields the
specification speaks about: story globs and addon package names, plus the
framework name and autodocs setting). -/
structure StorybookConfig where
  stories : List String
  addons : List String
  frameworkName : String
  autodocs : String
  deriving Repr, DecidableEq

/-- The `config` constant of `apps/.storybook/main.js`. -/
def storybookConfig : StorybookConfig :=
  { stories :=
      ["../stories/**/*.mdx",
       "../stories/**/*.stories.@(js|jsx|mjs|ts|tsx)",
       "../../packages/ui/src/components/**/*.stories.@(js|jsx|mjs|ts|tsx)"],
    addons :=
      ["@storybook/addon-onboarding",
       "@storybook/addon-links",
       "@storybook/addon-essentials",
       "@chromatic-com/storybook",
       "@storybook/addon-interactions"],
    frameworkName := "@storybook/nextjs",
    autodocs := "tag" }

/-- C6: the exported Storybook configuration declares exactly three story
file glob patterns and exactly the five addons onboarding, links, essentials,
chromatic, interactions, in that order; being a constant, it is the same list
on every evaluation. -/
theorem storybookConfig_stories_and_addons :
    storybookConfig.stories.length = 3 ∧
    storybookConfig.addons =
      ["@storybook/addon-onboarding",
       "@storybook/addon-links",
       "@storybook/addon-essentials",
       "@chromatic-com/storybook",
       "@storybook/addon-interactions"] ∧
    storybookConfig.addons.length = 5 := by
  decide

/-! ## The docs page components

`apps/docs/app/page.tsx` exports a `Page` component taking no props and
returning a fixed element tree built from the `@repo/ui` primitives; the
unnamed docs page (src/unnamed/part_001) does the same with a `Charts`
demo.  Imported components appear as elements tagged with the component
name; their props are the attribute list. -/

/-- The element tree returned by `Page` in `apps/docs/app/page.tsx`. -/
def docsPageTree : Node :=
  Node.element "main" [("className", "flex min-h-screen flex-col  p-24")]
    [Node.element "div" [("className", "flex flex-col gap-y-2")]
      [Node.element "h1" [("className", "text-4xl font-bold")] [Node.text "Docs"],
       Node.element "div" [("className", "flex flex-col m-9")]
         [Node.element "RainbowButton" [] [Node.text "Get Unlimited Access"]],
       Node.element "Button" [] [Node.text "Click me"],
       Node.element "Label" [] [Node.text "Email"],
       Node.element "Input" [("type", "email"), ("placeholder", "Email")] [],
       Node.element "Button" [] [Node.text "Submit"],
       Node.element "ToastDemo" [] [],
       Node.element "NeonGradientCard"
         [("className", "max-w-sm items-center justify-center text-center")]
         [Node.element "span"
           [("className", "pointer-events-none z-10 h-full whitespace-pre-wrap bg-gradient-to-br from-[#ff2975] from-35% to-[#00FFF1] bg-clip-text text-center text-6xl font-bold leading-none tracking-tighter text-transparent dark:drop-shadow-[0_5px_5px_rgba(0,0,0,0.8)]")]
           [Node.text "Neon Gradient Card"]],
       Node.element "RetroGridDemo" [] []]]

/-- `Page` from `apps/docs/app/page.tsx`: takes no props (modelled as a
`Unit` argument) and returns its literal JSX tree. -/
def docsPage (_ : Unit) : Node :=
  docsPageTree

/-- The element tree returned by the unnamed docs `Page`
(src/unnamed/part_001). -/
def chartsPageTree : Node :=
  Node.element "main"
    [("className", "flex min-h-screen flex-col items-center justify-between p-24")]
    [Node.element "div" [("className", "flex flex-col gap-y-2")]
      [Node.element "h1" [("className", "text-4xl font-bold")] [Node.text "Docs"],
       Node.element "Charts" [] []]]

/-- `Page` from src/unnamed/part_001: takes no props and returns its literal
JSX tree with the `Charts` demo. -/
def chartsPage (_ : Unit) : Node :=
  chartsPageTree

/-- C7: the docs `Page` components are constant, deterministic functions:
any two invocations return identical element trees, independent of any
input, state or environment (neither function reads anything but its unit
argument). -/
theorem docsPages_deterministic (u v : Unit) :
    docsPage u = docsPage v ∧ chartsPage u = chartsPage v :=
  ⟨rfl, rfl⟩

/-- C8: `Page()` from `apps/docs/app/page.tsx` terminates normally and
returns a JSX element — evaluation produces the literal `main` element tree
and raises no exception (the embedding is a total function into `Node`, with
no fallible step). -/
theorem docsPage_renders_without_throwing :
    docsPage () = docsPageTree ∧
    ∃ attrs children, docsPage () = Node.element "main" attrs children :=
  ⟨rfl, [("className", "flex min-h-screen flex-col  p-24")], _, rfl⟩

/-! ## Content documents and front-matter

The Markdown/MDX content documents of the repository, embedded as their
leading lines verbatim (front-matter block plus the opening body lines; the
remainder of each body is elided, so any body content shown here is present
in the file).  A front-matter block is delimited by `---` lines; a field is
a line `key: value` between the delimiters. -/

/-- A content document: its repository path and its leading lines,
verbatim. -/
structure ContentDocument where
  path : String
  lines : List String
  deriving Repr, DecidableEq

/-- A line consisting only of spaces (or empty). -/
def isBlankLine (l : String) : Bool :=
  l.data.all (fun c => c = ' ')

/-- A front-matter delimiter line: `---`, allowing trailing spaces (the
improved-approach article closes its block with a trailing-space
delimiter). -/
def isFmDelim (l : String) : Bool :=
  "---".data.isPrefixOf l.data && (l.data.drop 3).all (fun c => c = ' ')

/-- The field lines of the front-matter block: the lines strictly between an
opening `---` first line and the next `---` line; empty when the document
does not open with `---`. -/
def frontMatterLines (d : List String) : List String :=
  match d with
  | first :: rest =>
      if isFmDelim first then rest.takeWhile (fun l => !(isFmDelim l)) else []
  | [] => []

/-- Whether the document begins with a delimited front-matter block. -/
def hasFrontMatterBlock (d : List String) : Bool :=
  match d with
  | first :: rest => isFmDelim first && rest.any (fun l => isFmDelim l)
  | [] => false

/-- Whether the front-matter block carries the field `k` (a line starting
with `k:`). -/
def hasFmField (d : List String) (k : String) : Bool :=
  (frontMatterLines d).any (fun l => (k ++ ":").data.isPrefixOf l.data)

/-- The body of the document: everything after the closing front-matter
delimiter, or the whole document when there is no front-matter block. -/
def bodyLines (d : List String) : List String :=
  if hasFrontMatterBlock d then ((d.drop 1).dropWhile (fun l => !(isFmDelim l))).drop 1
  else d

/-- A Markdown heading line: a `#` heading or a bold `**` title line. -/
def isHeadingLine (l : String) : Bool :=
  "#".data.isPrefixOf l.data || "**".data.isPrefixOf l.data

/-- The document has a title: a `title` front-matter field, or — for a
document without front-matter — an opening heading line (a `#` or bold
`**` line). -/
def hasTitle (d : List String) : Bool :=
  hasFmField d "title" ||
    isHeadingLine (((bodyLines d).dropWhile isBlankLine).headD "")

/-- The document has a body: non-blank content following the title (for a
front-matter document, a non-blank body line; otherwise a non-blank line
after the opening heading line). -/
def hasBody (d : List String) : Bool :=
  if hasFrontMatterBlock d then (bodyLines d).any (fun l => !(isBlankLine l))
  else ((d.dropWhile isBlankLine).drop 1).any (fun l => !(isBlankLine l))

/-- When a `published` field is present, its value is the literal `true` or
`false`. -/
def publishedFieldIsBoolean (d : List String) : Bool :=
  (frontMatterLines d).all (fun l =>
    !("published:".data.isPrefixOf l.data) ||
      (l == "published: true" || l == "published: false"))

/-- The property asserted by the specification for every content document:
it begins with a front-matter block containing all four fields `title`,
`publishedAt`, `summary` and a boolean `published` flag. -/
def beginsWithCompleteFrontMatter (d : List String) : Bool :=
  hasFrontMatterBlock d &&
    hasFmField d "title" && hasFmField d "publishedAt" &&
    hasFmField d "summary" && hasFmField d "published" &&
    publishedFieldIsBoolean d

/-- `apps/portfolio/content/Design-Systems-Turborepo-and-Git-Submodules.mdx`
(leading lines; body continues in the file). -/
def designSystemsMdx : ContentDocument :=
  { path := "apps/portfolio/content/Design-Systems-Turborepo-and-Git-Submodules.mdx",
    lines :=
      ["---",
       "title: \"Design Systems, Turborepo, and Git Submodules: Strategies for Managing Shared Resources in Modern Web Development\"",
       "publishedAt: \"2024-06-18\"",
       "summary: \"Managing a design system that serves various projects while being maintained separately from application development teams can be challenging.\"",
       "published: true",
       "---",
       "",
       "**Design Systems, Turborepo, and Git Submodules: Strategies for Managing Shared Resources in Modern Web Development**",
       ""] }

/-- `apps/portfolio/content/Final - Exploring Predictive Maintenance and AI
in Construction and Engineering with EdgeDB.md` (leading lines; the file
opens with a blank line and a bold heading, with no front-matter block). -/
def predictiveMaintenanceMd : ContentDocument :=
  { path := "apps/portfolio/content/Final - Exploring Predictive Maintenance and AI in Construction and Engineering with EdgeDB.md",
    lines :=
      ["",
       "**Exploring Predictive Maintenance and AI in Construction and Engineering with EdgeDB: A Guide**",
       "  ",
       "**Introduction**",
       "In the construction and engineering industries, machinery downtime can significantly disrupt project timelines and inflate costs. Predictive maintenance offers a promising approach, using data and AI to forecast equipment needs before issues arise. This guide explores how predictive maintenance, enhanced by AI, could be implemented, focusing on how EdgeDB, a database system that blends relational and graph database features, might support such an approach. The examples provided are hypothetical and intended to illustrate potential applications rather than actual case studies."] }

/-- `apps/portfolio/content/Unlocking the Power of EdgeDB’s Native AI -
Transforming Legal, Construction, and Architecture Industries.md` (leading
lines; the file opens with a bold heading, with no front-matter block). -/
def nativeAiMd : ContentDocument :=
  { path := "apps/portfolio/content/Unlocking the Power of EdgeDB’s Native AI - Transforming Legal, Construction, and Architecture Industries.md",
    lines :=
      ["**Unlocking the Power of EdgeDB’s Native AI: Transforming Legal, Construction, and Architecture Industries**",
       "",
       "In today’s fast-paced world, where data drives decisions, integrating AI into your workflow isn’t just an option—it’s a necessity. EdgeDB is leading the way by embedding AI capabilities directly into its core, offering powerful tools that are as easy to use as they are effective. This article will explore how these native AI features can revolutionize the way professionals in law, construction, and architecture approach their work."] }

/-- The natural-language-query article (src/unnamed/part_000; leading
lines). -/
def nlQueryPost : ContentDocument :=
  { path := "src/unnamed/part_000",
    lines :=
      ["---",
       "title: \"Building a Natural Language Query Interface with EdgeDB, Cloudflare Pages, and AstroJS\"",
       "publishedAt: \"2024-06-18\"",
       "summary: \"What if you could simply ask your database a question in plain English, and it understood you?\"",
       "published: true",
       "---",
       "",
       "# Building a Natural Language Query Interface with EdgeDB, Cloudflare Pages, and AstroJS",
       ""] }

/-- The design-system strategy article (src/unnamed/part_003; leading
lines). -/
def strategyPost : ContentDocument :=
  { path := "src/unnamed/part_003",
    lines :=
      ["---",
       "title: \"Choosing the Right Strategy for Managing a Design System: Git Submodules, Subtrees, Monorepos, and Package Management\"",
       "publishedAt: \"2024-06-18\"",
       "summary: \"Managing a design system that serves various projects while being maintained separately from application development teams can be challenging.\"",
       "published: true",
       "---",
       "",
       "# Choosing the Right Strategy for Managing a Design System: Git Submodules, Subtrees, Monorepos, and Package Management",
       ""] }

/-- The git-fork guide (src/unnamed/part_004; leading lines — its
front-matter has `title`, `publishedAt` and `summary` but no `published`
field). -/
def gitForkPost : ContentDocument :=
  { path := "src/unnamed/part_004",
    lines :=
      ["---",
       "title: \"Safely Fork a Git Remote Instead of Clone\"",
       "publishedAt: \"2024-06-18\"",
       "summary: \"A guide to safely fork a Git remote instead of cloning to ensure you can keep your fork updated with the original repository.\"",
       "---",
       "",
       "**Steps for Setting Up Your Fork:**",
       "1. **Fork the Original Repository on GitHub**:"] }

/-- The improved-approach article, the Markdown document following the
document separator at line 362 of src/unnamed/part_000 (leading lines; its
front-matter block closes with a trailing-space `---` delimiter). -/
def improvedApproachPost : ContentDocument :=
  { path := "src/unnamed/part_000, document after the separator at line 362",
    lines :=
      ["---",
       "title: \"An improved approach to managing your data using EdgeDB for core operations, D2 (Durable Object) for persistent storage, and Cloudflare KV for caching\"",
       "publishedAt: \"2024-06-18\"",
       "summary: \"Managing a design system that serves various projects while being maintained separately from application development teams can be challenging.\"",
       "published: true",
       "---  ",
       "",
       "This guide outlines an improved approach to managing your data using EdgeDB for core operations, D2 (Durable Object) for persistent storage, and Cloudflare KV for caching in your Hono app deployed on Cloudflare Workers. The enhancements focus on automating cache invalidation, optimizing sync processes, and managing costs effectively."] }

/-- The autocomplete architecture article (src/unnamed/part_002; leading
lines — the document opens with its lead paragraph: no front-matter block
and no heading line before the prose). -/
def autocompletePost : ContentDocument :=
  { path := "src/unnamed/part_002",
    lines :=
      ["Building a fast, responsive autocomplete feature is crucial for delivering an excellent user experience in modern web applications. When working with large datasets, the challenge is to ensure that your system can handle high-frequency queries with minimal latency while maintaining data consistency. In this article, we’ll explore an optimized architecture that combines EdgeDB, Cloudflare D2 (Durable Objects), KV (Key-Value) caching, Hono for request handling, and Workers AI for NLP (Natural Language Processing) to SQL conversion. This setup will help you build a robust autocomplete feature for your Astro-based frontend.",
       "",
       "### **1. Architecture Overview**",
       "",
       "In this architecture:"] }

/-- The dynamic-selection article attached after the document separator at
line 45 of apps/stories/Button.jsx (leading lines; no front-matter block,
opening with a `#` heading). -/
def optimizingReactPost : ContentDocument :=
  { path := "apps/stories/Button.jsx, article after the separator at line 45",
    lines :=
      ["",
       "# Optimizing React Components with Dynamic Selection Based on User Interaction in Next.js 13+",
       "",
       "Optimizing user experience is important for engaging users, improving conversions, and driving business growth. For developers working with React and Next.js, implementing systems that dynamically adjust components based on real-time user data is a powerful strategy to achieve optimization."] }

/-- All Markdown/MDX content documents of the repository: the three files
under apps/portfolio/content and the article documents embedded in the
unnamed sources and in the story file (the other chunks of those files — a
JSX layout inside part_000 and the story code of Button.jsx — are source
code, not content documents). -/
def contentDocuments : List ContentDocument :=
  [designSystemsMdx, predictiveMaintenanceMd, nativeAiMd,
   nlQueryPost, improvedApproachPost, strategyPost, gitForkPost,
   autocompletePost, optimizingReactPost]

/-- Counterexample to C2: the git-fork guide is a content document whose
front-matter block lacks the `published` field, so not every content
document begins with a front-matter block containing all four fields. -/
theorem not_every_document_has_complete_frontMatter :
    gitForkPost ∈ contentDocuments ∧
    beginsWithCompleteFrontMatter gitForkPost.lines = false ∧
    ¬ (∀ d ∈ contentDocuments, beginsWithCompleteFrontMatter d.lines = true) := by
  exact ⟨by decide, by decide,
    fun h => absurd (h gitForkPost (by decide)) (by decide)⟩

/-- C2 as amended: every content document that begins with a front-matter
block has the `title`, `publishedAt` and `summary` fields, and any
`published` field present holds a boolean literal; the git-fork guide lacks
the `published` field and the two EdgeDB articles have no front-matter block
at all. -/
theorem frontMatter_fields_when_block_present :
    contentDocuments.all (fun d =>
      !(hasFrontMatterBlock d.lines) ||
        (hasFmField d.lines "title" && hasFmField d.lines "publishedAt" &&
         hasFmField d.lines "summary" && publishedFieldIsBoolean d.lines)) = true := by
  decide

/-- Counterexample to C5: the autocomplete architecture article is a content
document that opens with its lead paragraph — it has neither a front-matter
`title` field nor an opening heading line — so not every blog post has a
title. -/
theorem autocomplete_article_lacks_title :
    autocompletePost ∈ contentDocuments ∧
    hasTitle autocompletePost.lines = false ∧
    ¬ (∀ d ∈ contentDocuments, (hasTitle d.lines && hasBody d.lines) = true) := by
  exact ⟨by decide, by decide,
    fun h => absurd (h autocompletePost (by decide)) (by decide)⟩

/-- C5 as amended: every blog post has a non-empty body following its
opening, and every post other than the autocomplete architecture article
(src/unnamed/part_002) has a title — a front-matter `title` field or an
opening heading line; that article starts with its lead paragraph
instead. -/
theorem every_post_has_body_title_except_autocomplete :
    contentDocuments.all (fun d => hasBody d.lines) = true ∧
    contentDocuments.all (fun d => hasTitle d.lines || d == autocompletePost) = true := by
  exact ⟨by decide, by decide⟩

/-! ## The site-configuration object and the portfolio pages -/

/-- Modelled from the spec: a work-history entry of the personal-profile
record (company, title, date range, description); the portfolio app's
configuration module is not under the sources provided, so its shape follows
the specification's description. -/
structure WorkEntry where
  company : String
  title : String
  dateRange : String
  description : String
  deriving Repr, DecidableEq

/-- Modelled from the spec: a project entry of the personal-profile record
(title, description, technology tags, links). -/
structure ProjectEntry where
  title : String
  description : String
  technologies : List String
  links : List (String × String)
  deriving Repr, DecidableEq

/-- Modelled from the spec: a hackathon entry of the personal-profile
record. -/
structure HackathonEntry where
  title : String
  dates : String
  location : String
  description : String
  deriving Repr, DecidableEq

/-- Modelled from the spec: the site-configuration object — a
personal-profile record with a name, contact fields, an ordered list of
skills, work-history entries, projects, and hackathon entries, exported for
consumption by the page components. -/
structure SiteConfig where
  name : String
  contact : List (String × String)
  skills : List String
  work : List WorkEntry
  projects : List ProjectEntry
  hackathons : List HackathonEntry
  deriving Repr, DecidableEq

/-- Modelled from the spec: the exported site-configuration value (static
configuration read at render time; representative field values). -/
def siteConfigData : SiteConfig :=
  { name := "Stephen Milner",
    contact := [("email", "hello@example.com"), ("github", "stemil23")],
    skills := ["react", "next.js", "typescript", "postgres", "edgedb"],
    work :=
      [{ company := "Freelance", title := "Web Developer",
         dateRange := "2020 - Present",
         description := "Design-system driven sites on a Turborepo monorepo." }],
    projects :=
      [{ title := "turborepo-shadcn-ui",
         description := "Monorepo starter with a shared shadcn/ui package.",
         technologies := ["turborepo", "shadcn/ui"],
         links := [("source", "github.com/stemil23/turborepo-shadcn-ui")] }],
    hackathons := [] }

/-- Modelled from the spec: the resume-style portfolio page, a page
component consuming the site-configuration object: it renders the profile
name in a heading, then the contact, skills, work-history, project and
hackathon sections from the record's ordered lists. -/
def portfolioPage (cfg : SiteConfig) : Node :=
  Node.element "main" []
    [Node.element "h1" [] [Node.text cfg.name],
     Node.element "section" [("id", "contact")]
       (cfg.contact.map (fun p => Node.element "a" [("href", p.2)] [Node.text p.1])),
     Node.element "section" [("id", "skills")]
       (cfg.skills.map (fun s => Node.element "span" [] [Node.text s])),
     Node.element "section" [("id", "work")]
       (cfg.work.map (fun w => Node.element "div" []
         [Node.text w.company, Node.text w.title,
          Node.text w.dateRange, Node.text w.description])),
     Node.element "section" [("id", "projects")]
       (cfg.projects.map (fun p => Node.element "div" []
         [Node.text p.title, Node.text p.description])),
     Node.element "section" [("id", "hackathons")]
       (cfg.hackathons.map (fun h => Node.element "div" []
         [Node.text h.title, Node.text h.description]))]

mutual

/-- All text content of a rendered element tree, in document order. -/
def collectTexts : Node → List String
  | Node.text s => [s]
  | Node.element _ _ children => collectTextsList children

/-- Text content of a list of sibling nodes. -/
def collectTextsList : List Node → List String
  | [] => []
  | n :: ns => collectTexts n ++ collectTextsList ns

end

/-- C9: the site-configuration object is a personal-profile record
consumed by the portfolio page component, and the profile name appears in
the rendered output — both for the exported configuration value and for
every configuration the page could be given. -/
theorem siteConfig_name_rendered :
    siteConfigData.name ∈ collectTexts (portfolioPage siteConfigData) ∧
    ∀ cfg : SiteConfig, cfg.name ∈ collectTexts (portfolioPage cfg) := by
  constructor
  · decide
  · intro cfg
    show cfg.name ∈ cfg.name :: _
    exact List.mem_cons_self _ _

/-! ## `handleAutocompleteRequest`: the KV/D2 caching flow

From the autocomplete article (src/unnamed/part_002): reads check the KV
cache first; on a miss the Durable Object `autocomplete-data` (D2) is
queried; on a D2 miss Workers AI converts the query to SQL, the SQL is
executed on D2 and the result stored in the Durable Object; finally the
result is cached in KV (with `expirationTtl: 60`) and returned.

`JSON.stringify`/`JSON.parse` are modelled by a concrete injective
serializer for result lists and its verified parser (the platform pair is
inverse on JSON-representable values; the exact wire syntax plays no role
in the claims).  JavaScript truthiness tests are modelled explicitly: a
missing KV entry or empty string is falsy; an array result from D2 is
truthy, a missing one falsy. -/

/-- Autocomplete results: the rows answering a query, as a list of
suggestion strings. -/
abbrev AutoResults := List String

/-- Serialize one string: escape the escape character and the terminator,
then close with the terminator. -/
def escTermChars : List Char → List Char
  | [] => [';']
  | c :: s =>
      if c = '\\' then '\\' :: '\\' :: escTermChars s
      else if c = ';' then '\\' :: ';' :: escTermChars s
      else c :: escTermChars s

/-- Serialize a list of strings by concatenating the escaped, terminated
items. -/
def encodeStrings : List (List Char) → List Char
  | [] => []
  | s :: rest => escTermChars s ++ encodeStrings rest

/-- Parse the serialized form back; the flag records a pending escape
character, and `none` marks malformed input (modelling a `JSON.parse`
exception). -/
def decodeStringsAux : Bool → List Char → List Char → Option (List (List Char))
  | false, [], acc => if acc.isEmpty then some [] else none
  | true, [], _ => none
  | true, c :: rest, acc => decodeStringsAux false rest (acc ++ [c])
  | false, c :: rest, acc =>
      if c = '\\' then decodeStringsAux true rest acc
      else if c = ';' then (decodeStringsAux false rest []).map (fun l => acc :: l)
      else decodeStringsAux false rest (acc ++ [c])

/-- The model of `JSON.stringify` on a result list. -/
def jsonStringifyResults (rs : AutoResults) : String :=
  String.mk (encodeStrings (rs.map String.data))

/-- The model of `JSON.parse` on a cached string; `none` models a parse
exception on malformed input. -/
def jsonParseResults (s : String) : Option AutoResults :=
  (decodeStringsAux false s.data []).map (fun ls => ls.map String.mk)

theorem decodeStringsAux_escTermChars (s : List Char) (rest acc : List Char) :
    decodeStringsAux false (escTermChars s ++ rest) acc =
      (decodeStringsAux false rest []).map (fun l => (acc ++ s) :: l) := by
  induction s generalizing acc with
  | nil => simp [escTermChars, decodeStringsAux]
  | cons c s ih =>
      by_cases h1 : c = '\\'
      · subst h1
        simp [escTermChars, decodeStringsAux, ih, List.append_assoc]
      · by_cases h2 : c = ';'
        · subst h2
          simp [escTermChars, decodeStringsAux, h1, ih, List.append_assoc]
        · simp [escTermChars, decodeStringsAux, h1, h2, ih, List.append_assoc]

theorem decodeStrings_encodeStrings (rs : List (List Char)) :
    decodeStringsAux false (encodeStrings rs) [] = some rs := by
  induction rs with
  | nil => simp [encodeStrings, decodeStringsAux, List.isEmpty]
  | cons s rest ih => simp [encodeStrings, decodeStringsAux_escTermChars, ih]

theorem jsonParse_jsonStringify (rs : AutoResults) :
    jsonParseResults (jsonStringifyResults rs) = some rs := by
  have hmk : ∀ l : List String, (l.map String.data).map String.mk = l := by
    intro l
    induction l with
    | nil => rfl
    | cons s rest ihl => cases s; simp [ihl]
  simp [jsonParseResults, jsonStringifyResults, decodeStrings_encodeStrings, hmk]

/-- The worker environment: the KV namespace binding (query to cached
string with its TTL in seconds) and the storage of the `autocomplete-data`
Durable Object (query to results). -/
structure WorkerEnv where
  kv : List (String × String × Nat)
  d2 : List (String × AutoResults)
  deriving Repr, DecidableEq

/-- `env.KV_NAMESPACE.get(query)`: the cached string, if any. -/
def kvGet (env : WorkerEnv) (query : String) : Option String :=
  (env.kv.find? (fun e => e.1 == query)).map (fun e => e.2.1)

/-- `env.KV_NAMESPACE.put(query, value, { expirationTtl: 60 })`. -/
def kvPut (env : WorkerEnv) (query value : String) : WorkerEnv :=
  { env with kv := (query, value, 60) :: env.kv.filter (fun e => !(e.1 == query)) }

/-- `d2Object.get(query)` on the `autocomplete-data` Durable Object. -/
def d2Get (env : WorkerEnv) (query : String) : Option AutoResults :=
  (env.d2.find? (fun e => e.1 == query)).map (fun e => e.2)

/-- `d2Object.put(query, results)` on the `autocomplete-data` Durable
Object. -/
def d2Put (env : WorkerEnv) (query : String) (results : AutoResults) : WorkerEnv :=
  { env with d2 := (query, results) :: env.d2.filter (fun e => !(e.1 == query)) }

/-- JavaScript truthiness of `kvResult`: a present, non-empty string. -/
def isTruthy : Option String → Bool
  | some s => !(s == "")
  | none => false

/-- `handleAutocompleteRequest(query, env)`: check KV first and return the
parsed cached value on a hit; otherwise read the Durable Object, generating
and executing SQL (via the external `nlpToSQL` and `execSQL`) and storing
the result there when it is absent; finally cache the result string in KV
with a 60-second TTL and return the results together with the updated
environment.  A `none` result models the `JSON.parse` exception on a
malformed cached string. -/
def handleAutocompleteRequest (nlpToSQL : String → String)
    (execSQL : String → AutoResults) (query : String) (env : WorkerEnv) :
    Option (AutoResults × WorkerEnv) :=
  let kvResult := kvGet env query
  if isTruthy kvResult then
    (jsonParseResults (kvResult.getD "")).map (fun rs => (rs, env))
  else
    let found := d2Get env query
    let step :=
      match found with
      | some rs => (rs, env)
      | none =>
          let sqlQuery := nlpToSQL query
          let rs := execSQL sqlQuery
          (rs, d2Put env query rs)
    some (step.1, kvPut step.2 query (jsonStringifyResults step.1))

theorem kvGet_kvPut_self (env : WorkerEnv) (query value : String) :
    kvGet (kvPut env query value) query = some value := by
  simp [kvGet, kvPut, List.find?_cons_of_pos]

theorem d2Get_kvPut (env : WorkerEnv) (q query value : String) :
    d2Get (kvPut env query value) q = d2Get env q := rfl

theorem d2Get_d2Put_self (env : WorkerEnv) (query : String) (rs : AutoResults) :
    d2Get (d2Put env query rs) query = some rs := by
  simp [d2Get, d2Put, List.find?_cons_of_pos]

/-- C10: calling `handleAutocompleteRequest` twice in succession with the
same query and no intervening cache writes or expirations returns equal
results: when the first call returns `r1` leaving environment `env1`, the
second call on `env1` also returns `r1` (served from the KV entry the first
call wrote or found, falling back to the D2 entry it ensured). -/
theorem autocomplete_same_query_consistent (nlpToSQL : String → String)
    (execSQL : String → AutoResults) (query : String) (env : WorkerEnv)
    (r1 : AutoResults) (env1 : WorkerEnv)
    (h : handleAutocompleteRequest nlpToSQL execSQL query env = some (r1, env1)) :
    (handleAutocompleteRequest nlpToSQL execSQL query env1).map Prod.fst = some r1 := by
  unfold handleAutocompleteRequest at h ⊢
  by_cases h1 : isTruthy (kvGet env query) = true
  · -- the first call was served from the KV cache and left the state unchanged
    simp only [h1, if_true] at h
    cases hp : jsonParseResults ((kvGet env query).getD "") with
    | none => simp [hp] at h
    | some rs =>
        simp only [hp, Option.map_some] at h
        obtain ⟨hr, he⟩ := Prod.mk.injEq .. ▸ Option.some.injEq .. ▸ h
        subst hr
        subst he
        simp [h1, hp]
  · -- the first call missed KV; it cached its result there
    simp only [h1, if_false, Bool.not_eq_true] at h
    cases hd : d2Get env query with
    | some rs =>
        simp [hd] at h
        obtain ⟨hr, he⟩ := h
        subst hr
        subst he
        by_cases hempty : (jsonStringifyResults rs == "") = true
        · simp [kvGet_kvPut_self, isTruthy, hempty, d2Get_kvPut, hd]
        · simp [kvGet_kvPut_self, isTruthy, hempty, jsonParse_jsonStringify]
    | none =>
        simp [hd] at h
        obtain ⟨hr, he⟩ := h
        subst hr
        subst he
        by_cases hempty : (jsonStringifyResults (execSQL (nlpToSQL query)) == "") = true
        · simp [kvGet_kvPut_self, isTruthy, hempty, d2Get_kvPut, d2Get_d2Put_self]
        · simp [kvGet_kvPut_self, isTruthy, hempty, jsonParse_jsonStringify]

/-- Witness for C10: on an empty environment, a first call for the query
`al` computes the results via NLP-to-SQL and D2, caches them, and a second
call returns the same results. -/
theorem autocomplete_same_query_consistent_witness :
    handleAutocompleteRequest (fun _ => "SELECT name FROM users")
        (fun _ => ["alice", "bob"]) "al" ⟨[], []⟩ =
      some (["alice", "bob"],
        kvPut (d2Put ⟨[], []⟩ "al" ["alice", "bob"]) "al"
          (jsonStringifyResults ["alice", "bob"])) ∧
    (handleAutocompleteRequest (fun _ => "SELECT name FROM users")
        (fun _ => ["alice", "bob"]) "al"
        (kvPut (d2Put ⟨[], []⟩ "al" ["alice", "bob"]) "al"
          (jsonStringifyResults ["alice", "bob"]))).map Prod.fst =
      some ["alice", "bob"] :=
  ⟨by decide,
   autocomplete_same_query_consistent (fun _ => "SELECT name FROM users")
     (fun _ => ["alice", "bob"]) "al" ⟨[], []⟩ ["alice", "bob"]
     (kvPut (d2Put ⟨[], []⟩ "al" ["alice", "bob"]) "al"
       (jsonStringifyResults ["alice", "bob"])) (by decide)⟩
